import Mathlib

/-!
# Veritium frontend — shallow embedding and verification

This file embeds the TypeScript frontend of the Veritium scientific-article
verification system (and, where the backend engine is referenced but its
sources are absent, spec-modelled counterparts) into Lean 4, and proves the
behavioural properties stated in the specification.

Scores are modelled as rationals (`ℚ`); JavaScript strings are modelled as
`String` (or `List Char` where character-level reasoning about trimming and
regular-expression matching is needed); optional/undefined values as `Option`.
-/

namespace Veritium

/-! ## Data model (`src/frontend/src/types/index.ts`) -/

/-- The `stance` union type `'supports' | 'contradicts' | 'neutral'`. -/
inductive Stance
  | supports
  | contradicts
  | neutral
deriving DecidableEq, Repr

/-- The string carried by each member of the TS union type. -/
def Stance.toTsString : Stance → String
  | .supports => "supports"
  | .contradicts => "contradicts"
  | .neutral => "neutral"

/-- `EvidenceSnippet` interface. -/
structure EvidenceSnippet where
  text : String
  similarity : ℚ
  sentence_index : Nat
  word_count : Nat
deriving DecidableEq, Repr

/-- `Citation` interface. -/
structure Citation where
  id : String
  text : String
  similarity_score : ℚ
  document_title : String
  document_id : Int
  snippet_index : Nat
  doi : Option String
  url : Option String
deriving DecidableEq, Repr

/-- `Assessment` interface. -/
structure Assessment where
  id : Int
  document_id : Int
  user_claim : String
  similarity_score : ℚ
  stance : Stance
  entailment_score : ℚ
  method_quality_score : ℚ
  evidence_strength_score : ℚ
  confidence_score : ℚ
  explanation : String
  evidence_snippets : List EvidenceSnippet
  citations : List Citation
  share_id : Option String
  created_at : String
deriving Repr

/-- `Document` interface. -/
structure Document where
  id : Int
  title : String
  authors : List String
  abstract : String
  doi : Option String
  url : Option String
  file_type : String
  extracted_claims : List String
  confidence_score : ℚ
  method_quality_score : ℚ
  created_at : String
deriving Repr

/-! ## Score tiers (`ScoreDisplay.tsx`, `EvidenceSnippets.tsx`) — claim C1 -/

/-- The three-tier labelling used throughout the UI. -/
inductive Tier
  | high
  | medium
  | low
deriving DecidableEq, Repr

/-- The tier assigned to a score: the branch structure shared by every
tier-rendering site (`score >= 0.7 ? … : score >= 0.4 ? … : …`). -/
def tierOf (s : ℚ) : Tier :=
  if s ≥ 0.7 then .high
  else if s ≥ 0.4 then .medium
  else .low

/-- `ScoreBar` fill colour, `ScoreDisplay.tsx` lines 57–59:
`score >= 0.7 ? 'bg-green-500' : score >= 0.4 ? 'bg-yellow-500' : 'bg-red-500'`. -/
def scoreBarColor (score : ℚ) : String :=
  if score ≥ 0.7 then "bg-green-500"
  else if score ≥ 0.4 then "bg-yellow-500"
  else "bg-red-500"

/-- Similarity-label colour in `EvidenceSnippets.tsx` lines 264–265:
`snippet.similarity >= 0.7 ? 'text-green-600' : snippet.similarity >= 0.4 ?
'text-yellow-600' : 'text-red-600'`. -/
def snippetSimilarityColor (similarity : ℚ) : String :=
  if similarity ≥ 0.7 then "text-green-600"
  else if similarity ≥ 0.4 then "text-yellow-600"
  else "text-red-600"

/-- The colour each tier stands for in the `ScoreBar` rendering and in the
static "Score Interpretation" legend (`ScoreDisplay.tsx` lines 140–156). -/
def tierBarColor : Tier → String
  | .high => "bg-green-500"
  | .medium => "bg-yellow-500"
  | .low => "bg-red-500"

/-- The colour each tier stands for in the evidence-snippet similarity label. -/
def tierSnippetColor : Tier → String
  | .high => "text-green-600"
  | .medium => "text-yellow-600"
  | .low => "text-red-600"

/-! ## Stance rendering (`ScoreDisplay.tsx` `getStanceIcon`/`getStanceColor`) — claim C7 -/

/-- `getStanceIcon` (`ScoreDisplay.tsx` lines 25–34): a `switch` on the stance
string with cases for `'supports'` and `'contradicts'` and a `default` branch;
modelled by the icon name and colour class each branch renders. -/
def getStanceIcon (stance : String) : String :=
  if stance = "supports" then "CheckCircleIcon text-green-500"
  else if stance = "contradicts" then "XCircleIcon text-red-500"
  else "MinusCircleIcon text-gray-500"

/-- `getStanceColor` (`ScoreDisplay.tsx` lines 36–45). -/
def getStanceColor (stance : String) : String :=
  if stance = "supports" then "text-green-700 bg-green-50 border-green-200"
  else if stance = "contradicts" then "text-red-700 bg-red-50 border-red-200"
  else "text-gray-700 bg-gray-50 border-gray-200"

/-! ## Feedback submission (`AssessmentPage.tsx`, `api.ts`) — claim C2 -/

/-- The JSON body posted by `assessmentApi.submitFeedback`
(`api.ts` lines 70–79): `{ feedback_score, feedback_comment }`. -/
structure FeedbackRequest where
  assessmentId : Int
  feedback_score : Int
  feedback_comment : Option String
deriving DecidableEq, Repr

/-- `assessmentApi.submitFeedback(assessmentId, feedbackScore, comment?)`:
builds the POST body for `/assessments/{id}/feedback`. -/
def submitFeedback (assessmentId : Int) (feedbackScore : Int)
    (comment : Option String) : FeedbackRequest :=
  { assessmentId := assessmentId
    feedback_score := feedbackScore
    feedback_comment := comment }

/-- `handleFeedback(score)` in `AssessmentPage.tsx` lines 65–79: returns early
when no assessment is loaded, otherwise calls `submitFeedback` with the
assessment id, the given score, and `feedbackComment || undefined` (the empty
comment string is sent as `undefined`). -/
def handleFeedback (assessment : Option Assessment) (score : Int)
    (feedbackComment : String) : Option FeedbackRequest :=
  match assessment with
  | none => none
  | some a =>
      some (submitFeedback a.id score
        (if feedbackComment = "" then none else some feedbackComment))

/-- The only scores the feedback UI ever passes to `handleFeedback`: the
"Helpful" button calls `handleFeedback(1)` and the "Not Helpful" button calls
`handleFeedback(-1)` (`AssessmentPage.tsx` lines 190–210). -/
def feedbackButtonScores : List Int := [1, -1]

/-! ## JavaScript string trimming

`String.prototype.trim()` removes leading and trailing whitespace
(ECMAScript WhiteSpace and LineTerminator code points). -/

/-- The whitespace set recognised by JavaScript's `trim()`. -/
def jsWhitespace (c : Char) : Bool :=
  c = ' ' || c = '\t' || c = '\n' || c = '\r' || c = '\x0b' || c = '\x0c' ||
  c = '\u00a0' || c = '\ufeff' || c = '\u2028' || c = '\u2029'

/-- `trim()` on a character list: drop whitespace from both ends. -/
def jsTrimL (cs : List Char) : List Char :=
  ((cs.dropWhile jsWhitespace).reverse.dropWhile jsWhitespace).reverse

/-- `trim()` on a string. -/
def jsTrim (s : String) : String :=
  ⟨jsTrimL s.data⟩

/-! ## Claim submission (`FileUpload.tsx` `ClaimInput`/`HomePage`) — claim C3 -/

/-- The JSON body posted by `assessmentApi.createAssessment`
(`api.ts` lines 52–58): `{ document_id, user_claim }`. -/
structure CreateAssessmentRequest where
  document_id : Int
  user_claim : String
deriving DecidableEq, Repr

/-- `assessmentApi.createAssessment(documentId, userClaim)`. -/
def createAssessment (documentId : Int) (userClaim : String) :
    CreateAssessmentRequest :=
  { document_id := documentId, user_claim := userClaim }

/-- `ClaimInput.handleSubmit` (`FileUpload.tsx` source, `ClaimInput` component):
`if (!claim.trim()) return; onSubmit(claim.trim())` — yields the string passed
to `onSubmit`, or `none` when the trimmed input is empty. -/
def claimHandleSubmit (claim : String) : Option String :=
  if jsTrim claim = "" then none else some (jsTrim claim)

/-- The Analyze button's `disabled={isLoading || !claim.trim()}` condition. -/
def analyzeButtonDisabled (isLoading : Bool) (claim : String) : Bool :=
  isLoading || (jsTrim claim = "")

/-- `HomePage.handleClaimSubmit(claim)`: errors out when no document is loaded,
otherwise posts `createAssessment(document.id, claim)`. -/
def homeHandleClaimSubmit (doc : Option Document) (claim : String) :
    Option CreateAssessmentRequest :=
  match doc with
  | none => none
  | some d => some (createAssessment d.id claim)

/-- The composed claim-form flow: `ClaimInput.handleSubmit` feeding
`HomePage.handleClaimSubmit` through the `onSubmit` callback. -/
def claimSubmitFlow (doc : Option Document) (input : String) :
    Option CreateAssessmentRequest :=
  (claimHandleSubmit input).bind (homeHandleClaimSubmit doc)

/-! ## Theorems for claims C1–C3 -/

/-- C1: every score-tier rendering site uses the same three-tier labelling:
the tier is `high` exactly when the score is ≥ 0.7, `medium` exactly when it
is in [0.4, 0.7), and `low` exactly when it is < 0.4; the `ScoreBar` fill
colour and the evidence-snippet similarity label colour both render exactly
the tier assigned by that rule. -/
theorem tier_labeling_consistent (s : ℚ) :
    (tierOf s = .high ↔ s ≥ 0.7) ∧
    (tierOf s = .medium ↔ 0.4 ≤ s ∧ s < 0.7) ∧
    (tierOf s = .low ↔ s < 0.4) ∧
    scoreBarColor s = tierBarColor (tierOf s) ∧
    snippetSimilarityColor s = tierSnippetColor (tierOf s) := by
  unfold tierOf scoreBarColor snippetSimilarityColor tierBarColor tierSnippetColor
  split_ifs with h1 h2 <;> simp_all
  all_goals linarith

/-- Witness for C1 at the concrete score 0.5. -/
theorem tier_labeling_consistent_w :
    tierOf 0.5 = Tier.medium ∧ scoreBarColor 0.5 = tierBarColor (tierOf 0.5) :=
  ⟨((tier_labeling_consistent 0.5).2.1).mpr (by norm_num),
   (tier_labeling_consistent 0.5).2.2.2.1⟩

/-- C2: every feedback request the client can send carries a feedback score
equal to 1 or −1: the page's buttons invoke the handler only with the scores
in `feedbackButtonScores = [1, -1]`, and whenever the handler issues a request
its `feedback_score` field is that score, hence in {−1, 1}. -/
theorem feedback_score_in_range (s : Int) (hs : s ∈ feedbackButtonScores)
    (a : Option Assessment) (c : String) (req : FeedbackRequest)
    (h : handleFeedback a s c = some req) :
    req.feedback_score = -1 ∨ req.feedback_score = 1 := by
  rcases a with _ | a
  · simp [handleFeedback] at h
  · simp [handleFeedback, submitFeedback] at h
    simp only [feedbackButtonScores, List.mem_cons, List.not_mem_nil, or_false] at hs
    rcases hs with hs | hs
    · right; rw [← h]; exact hs
    · left; rw [← h]; exact hs

/-- Sample assessment used to evaluate the embedding on concrete inputs. -/
def sampleAssessment : Assessment :=
  { id := 42
    document_id := 7
    user_claim := "Exercise reduces heart rate"
    similarity_score := 0.8
    stance := .supports
    entailment_score := 0.6
    method_quality_score := 0.5
    evidence_strength_score := 0.7
    confidence_score := 0.65
    explanation := "The document supports the claim."
    evidence_snippets := []
    citations := []
    share_id := none
    created_at := "2024-01-01" }

/-- Witness for C2: the "Helpful" button (score 1) on a loaded assessment. -/
theorem feedback_score_in_range_w :
    ∃ req, handleFeedback (some sampleAssessment) 1 "" = some req ∧
      (req.feedback_score = -1 ∨ req.feedback_score = 1) :=
  ⟨submitFeedback 42 1 none, rfl,
   feedback_score_in_range 1 (by decide) (some sampleAssessment) "" _ rfl⟩

/-- C3: when the claim input trims to the empty string, submitting the form
creates no assessment request (and the Analyze button is disabled); for any
other input, the created request carries exactly the trimmed claim text. -/
theorem claim_submit_trimmed (doc : Document) (input : String) (b : Bool) :
    (jsTrim input = "" →
      claimSubmitFlow (some doc) input = none ∧
      analyzeButtonDisabled b input = true) ∧
    (jsTrim input ≠ "" →
      claimSubmitFlow (some doc) input =
        some (createAssessment doc.id (jsTrim input))) := by
  constructor
  · intro h
    constructor
    · simp [claimSubmitFlow, claimHandleSubmit, h]
    · simp [analyzeButtonDisabled, h]
  · intro h
    simp [claimSubmitFlow, claimHandleSubmit, h, homeHandleClaimSubmit]

/-- Sample document used to evaluate the embedding on concrete inputs. -/
def sampleDocument : Document :=
  { id := 7
    title := "Exercise and heart rate"
    authors := ["A. Researcher"]
    abstract := "A study."
    doi := some "10.1000/123456"
    url := none
    file_type := "pdf"
    extracted_claims := ["Exercise lowers resting heart rate."]
    confidence_score := 0.6
    method_quality_score := 0.5
    created_at := "2024-01-01" }

/-- Witness for C3: a whitespace-only input makes no request, and a padded
input produces a request carrying the trimmed text. -/
theorem claim_submit_trimmed_w :
    (claimSubmitFlow (some sampleDocument) "   " = none ∧
      analyzeButtonDisabled false "   " = true) ∧
    claimSubmitFlow (some sampleDocument) "  exercise helps  " =
      some (createAssessment sampleDocument.id (jsTrim "  exercise helps  ")) ∧
    jsTrim "  exercise helps  " = "exercise helps" :=
  ⟨(claim_submit_trimmed sampleDocument "   " false).1 (by decide),
   (claim_submit_trimmed sampleDocument "  exercise helps  " false).2 (by decide),
   by decide⟩

/-- C7: the stance rendering is total over all strings: `'supports'` renders
the green supports icon/colour, `'contradicts'` the red ones, and every other
string — `'neutral'` included — the gray neutral ones; moreover every value of
the `stance` enum is one of the three declared alternatives. -/
theorem stance_rendering_total (s : String) :
    (getStanceIcon "supports" = "CheckCircleIcon text-green-500" ∧
      getStanceColor "supports" = "text-green-700 bg-green-50 border-green-200") ∧
    (getStanceIcon "contradicts" = "XCircleIcon text-red-500" ∧
      getStanceColor "contradicts" = "text-red-700 bg-red-50 border-red-200") ∧
    (s ≠ "supports" → s ≠ "contradicts" →
      getStanceIcon s = "MinusCircleIcon text-gray-500" ∧
      getStanceColor s = "text-gray-700 bg-gray-50 border-gray-200") ∧
    (getStanceIcon "neutral" = "MinusCircleIcon text-gray-500" ∧
      getStanceColor "neutral" = "text-gray-700 bg-gray-50 border-gray-200") ∧
    (∀ st : Stance, st.toTsString = "supports" ∨ st.toTsString = "contradicts" ∨
      st.toTsString = "neutral") := by
  refine ⟨⟨by decide, by decide⟩, ⟨by decide, by decide⟩, ?_, ⟨by decide, by decide⟩, ?_⟩
  · intro h1 h2
    constructor
    · simp [getStanceIcon, h1, h2]
    · simp [getStanceColor, h1, h2]
  · intro st
    cases st <;> simp [Stance.toTsString]

/-- Witness for C7 at the arbitrary stance string "unknown-stance". -/
theorem stance_rendering_total_w :
    getStanceIcon "unknown-stance" = "MinusCircleIcon text-gray-500" ∧
    getStanceColor "unknown-stance" = "text-gray-700 bg-gray-50 border-gray-200" :=
  (stance_rendering_total "unknown-stance").2.2.1 (by decide) (by decide)

/-! ## File upload validation (`FileUpload.tsx` `onDrop`) — claim C8 -/

/-- The relevant attributes of a dropped `File` object. -/
structure JsFile where
  type : String
  size : Nat
deriving DecidableEq, Repr

/-- `allowedTypes` in `onDrop` (`FileUpload.tsx` lines 20–24). -/
def allowedTypes : List String :=
  ["application/pdf",
   "application/vnd.openxmlformats-officedocument.wordprocessingml.document"]

/-- The observable outcome of `onDrop`: either nothing happens (no file),
an error message is reported via `onError` with no upload request, or
`documentApi.uploadFile(file)` is called. -/
inductive DropOutcome
  | noFile
  | rejected (msg : String)
  | upload (file : JsFile)
deriving DecidableEq, Repr

/-- `onDrop` (`FileUpload.tsx` lines 15–42): takes the first accepted file,
rejects it unless its MIME type is in `allowedTypes`, rejects it if its size
exceeds `50 * 1024 * 1024` bytes, and only then uploads it. -/
def onDrop (acceptedFiles : List JsFile) : DropOutcome :=
  match acceptedFiles.head? with
  | none => .noFile
  | some file =>
      if ¬ (file.type ∈ allowedTypes) then
        .rejected "Please upload a PDF or DOCX file"
      else if file.size > 50 * 1024 * 1024 then
        .rejected "File size must be less than 50MB"
      else .upload file

/-! ## Share button (`AssessmentPage.tsx` `handleShare`) — claim C10 -/

/-- An observable effect of `handleShare`: writing to the clipboard, showing a
success toast, or sending an API request. The handler's body only ever
produces the first two; `apiRequest` is included so the absence of any server
call is expressible. -/
inductive ShareEffect
  | clipboardWrite (text : String)
  | toastSuccess (msg : String)
  | apiRequest (path : String)
deriving DecidableEq, Repr

/-- Truthiness of `assessment?.share_id`: `undefined` (no assessment, or no
share id) and the empty string are falsy. -/
def shareIdTruthy (assessment : Option Assessment) : Bool :=
  match assessment with
  | none => false
  | some a =>
      match a.share_id with
      | none => false
      | some sid => sid ≠ ""

/-- `handleShare` (`AssessmentPage.tsx` lines 45–63): returns immediately when
`!assessment?.share_id`; otherwise builds the share URL, writes it to the
clipboard and shows a success toast. No branch issues an API request. -/
def handleShare (origin : String) (assessment : Option Assessment) :
    List ShareEffect :=
  match assessment with
  | none => []
  | some a =>
      match a.share_id with
      | none => []
      | some sid =>
          if sid = "" then []
          else
            [.clipboardWrite (origin ++ "/share/" ++ sid),
             .toastSuccess "Share link copied to clipboard!"]

/-! ## Theorems for claims C8 and C10 -/

/-- C8: `documentApi.uploadFile` is reached exactly for files whose MIME type
is PDF or DOCX and whose size is at most 52428800 bytes; every other dropped
file is rejected with an error message and no upload request. -/
theorem upload_validation (f : JsFile) :
    (onDrop [f] = .upload f ↔
      f.type ∈ allowedTypes ∧ f.size ≤ 52428800) ∧
    (f.type ∉ allowedTypes ∨ 52428800 < f.size →
      ∃ msg, onDrop [f] = .rejected msg) := by
  constructor
  · constructor
    · intro h
      by_cases ht : f.type ∈ allowedTypes
      · by_cases hs : f.size > 50 * 1024 * 1024
        · simp [onDrop, ht, hs] at h
        · exact ⟨ht, by omega⟩
      · simp [onDrop, ht] at h
    · rintro ⟨ht, hs⟩
      simp [onDrop, ht]
      omega
  · intro h
    rcases h with ht | hs
    · exact ⟨"Please upload a PDF or DOCX file", by simp [onDrop, ht]⟩
    · by_cases ht : f.type ∈ allowedTypes
      · refine ⟨"File size must be less than 50MB", ?_⟩
        simp [onDrop, ht]
        omega
      · exact ⟨"Please upload a PDF or DOCX file", by simp [onDrop, ht]⟩

/-- Witness for C8: a small PDF is uploaded; an oversized PDF is rejected. -/
theorem upload_validation_w :
    onDrop [⟨"application/pdf", 1024⟩] = .upload ⟨"application/pdf", 1024⟩ ∧
    ∃ msg, onDrop [⟨"application/pdf", 52428801⟩] = .rejected msg :=
  ⟨(upload_validation ⟨"application/pdf", 1024⟩).1.mpr ⟨by decide, by decide⟩,
   (upload_validation ⟨"application/pdf", 52428801⟩).2 (Or.inr (by decide))⟩

/-- C10: when the loaded assessment has no share id, activating the Share
button has no observable effect — no clipboard write, no toast, and in
particular no API request; moreover no invocation of `handleShare` ever
produces an API request, so the client never asks the server to generate a
share id. -/
theorem share_without_id_no_effect (origin : String) (a : Assessment)
    (h : a.share_id = none) :
    handleShare origin (some a) = [] ∧
    handleShare origin none = [] ∧
    ∀ asmt e, e ∈ handleShare origin asmt → ∀ p, e ≠ .apiRequest p := by
  refine ⟨by simp [handleShare, h], rfl, ?_⟩
  intro asmt e he p
  rcases asmt with _ | b
  · simp [handleShare] at he
  · rcases hb : b.share_id with _ | sid
    · simp [handleShare, hb] at he
    · by_cases hsid : sid = ""
      · simp [handleShare, hb, hsid] at he
      · simp [handleShare, hb, hsid] at he
        rcases he with he | he <;> simp [he]

/-- Witness for C10: the sample assessment (whose `share_id` is absent). -/
theorem share_without_id_no_effect_w :
    handleShare "http://localhost:3000" (some sampleAssessment) = [] :=
  (share_without_id_no_effect "http://localhost:3000" sampleAssessment rfl).1

/-! ## Share-id generation (backend) — claim C4 -/

/-- Modelled from the spec: the backend persistence layer the core's
`ensureShareId` runs against. The backend sources are not available; per §6,
persistence offers `load(id)` and stores immutable assessments whose only
lazily-written field is the share id. `lookup` is the stored-assessment map
and `nextFresh` feeds the generator of new unique share identifiers. -/
structure ShareStore where
  lookup : Int → Option Assessment
  nextFresh : Nat

/-- Modelled from the spec: generation of a fresh unique share identifier. -/
def genShareId (n : Nat) : String :=
  "share-" ++ toString n

/-- Modelled from the spec: `ensureShareId(assessmentId) -> shareId`
(idempotent — returns the existing id if already generated, otherwise lazily
generates one on this first share request and stores it, stable thereafter);
fails when the assessment id is unknown. -/
def ensureShareId (st : ShareStore) (assessmentId : Int) :
    Option (String × ShareStore) :=
  match st.lookup assessmentId with
  | none => none
  | some a =>
      match a.share_id with
      | some sid => some (sid, st)
      | none =>
          let sid := genShareId st.nextFresh
          some (sid,
            { lookup := fun i =>
                if i = assessmentId then some { a with share_id := some sid }
                else st.lookup i
              nextFresh := st.nextFresh + 1 })

/-! ## Confidence fusion (backend) — claim C5 -/

/-- The four configurable confidence-fusion weights. -/
structure FusionWeights where
  similarity : ℚ
  entailment : ℚ
  quality : ℚ
  evidence_strength : ℚ
deriving DecidableEq, Repr

/-- The default fusion weights (similarity 0.25, entailment 0.35,
quality 0.20, evidence strength 0.20). -/
def defaultFusionWeights : FusionWeights :=
  { similarity := 0.25
    entailment := 0.35
    quality := 0.20
    evidence_strength := 0.20 }

/-- Clamp a value to the unit interval [0, 1]. -/
def clamp01 (x : ℚ) : ℚ :=
  max 0 (min 1 x)

/-- The weighted sum of the four fusion inputs. -/
def weightedSum (w : FusionWeights) (sim ent qual ev : ℚ) : ℚ :=
  w.similarity * sim + w.entailment * ent + w.quality * qual +
    w.evidence_strength * ev

/-- Modelled from the spec: Confidence Fusion (§4.7). The backend scoring
sources are not available; per the spec, `confidence_score` is the weighted
sum of similarity, entailment, method-quality and evidence-strength under the
configured weights (which must sum to 1.0), clamped to [0, 1]. -/
def fuseConfidence (w : FusionWeights) (sim ent qual ev : ℚ) : ℚ :=
  clamp01 (weightedSum w sim ent qual ev)

/-! ## Evidence retrieval (backend) — claim C6 -/

/-- The default number of evidence snippets retained (K = 5). -/
def defaultTopK : Nat := 5

/-- The default minimum-similarity threshold (0.2). -/
def defaultMinSimilarity : ℚ := 0.2

/-- The evidence ranking order: higher similarity first, ties broken by the
lower (earlier) sentence index. -/
def snippetBefore (a b : EvidenceSnippet) : Bool :=
  decide (b.similarity < a.similarity ∨
    (a.similarity = b.similarity ∧ a.sentence_index ≤ b.sentence_index))

/-- Modelled from the spec: the Evidence Retriever (§4.4). The backend
sources are not available; per the spec, the retriever keeps the sentences
whose similarity to the claim reaches the minimum threshold, ranks them by
similarity descending with ties broken by ascending sentence index, and
returns the top K. -/
def retrieveEvidence (K : Nat) (minSim : ℚ)
    (scored : List EvidenceSnippet) : List EvidenceSnippet :=
  ((scored.filter (fun s => decide (minSim ≤ s.similarity))).mergeSort
    snippetBefore).take K

theorem snippetBefore_trans (a b c : EvidenceSnippet)
    (hab : snippetBefore a b = true) (hbc : snippetBefore b c = true) :
    snippetBefore a c = true := by
  simp only [snippetBefore, decide_eq_true_eq] at *
  rcases hab with h | ⟨h1, h2⟩ <;> rcases hbc with h' | ⟨h1', h2'⟩
  · exact Or.inl (h'.trans h)
  · exact Or.inl (h1' ▸ h)
  · exact Or.inl (h1 ▸ h')
  · exact Or.inr ⟨h1.trans h1', h2.trans h2'⟩

theorem snippetBefore_total (a b : EvidenceSnippet) :
    (snippetBefore a b || snippetBefore b a) = true := by
  simp only [snippetBefore, Bool.or_eq_true, decide_eq_true_eq]
  rcases lt_trichotomy a.similarity b.similarity with h | h | h
  · exact Or.inr (Or.inl h)
  · rcases Nat.le_total a.sentence_index b.sentence_index with hi | hi
    · exact Or.inl (Or.inr ⟨h, hi⟩)
    · exact Or.inr (Or.inr ⟨h.symm, hi⟩)
  · exact Or.inl (Or.inl h)

/-! ## Theorems for claims C4–C6 -/

/-- C4: `ensureShareId` is idempotent: whenever a call returns a share id,
calling it again on the resulting store returns the identical id (and leaves
the store unchanged) — the first share request lazily generates the id, and
every later call returns that existing id. -/
theorem ensureShareId_idempotent (st : ShareStore) (assessmentId : Int)
    (sid : String) (st1 : ShareStore)
    (h : ensureShareId st assessmentId = some (sid, st1)) :
    ensureShareId st1 assessmentId = some (sid, st1) := by
  unfold ensureShareId at h ⊢
  split at h
  · exact Option.noConfusion h
  next a hl =>
    split at h
    next s hs =>
      simp only [Option.some.injEq, Prod.mk.injEq] at h
      obtain ⟨h1, h2⟩ := h
      subst h1
      subst h2
      simp [hl, hs]
    next hs =>
      simp only [Option.some.injEq, Prod.mk.injEq] at h
      obtain ⟨h1, h2⟩ := h
      subst h1
      subst h2
      simp

/-- A store holding the sample assessment (which has no share id yet). -/
def sampleStore : ShareStore :=
  { lookup := fun i => if i = 42 then some sampleAssessment else none
    nextFresh := 0 }

/-- Witness for C4: generating the id for assessment 42 and calling again
returns the same id both times. -/
theorem ensureShareId_idempotent_w :
    ∃ st1, ensureShareId sampleStore 42 = some (genShareId 0, st1) ∧
      ensureShareId st1 42 = some (genShareId 0, st1) :=
  ⟨_, rfl, ensureShareId_idempotent sampleStore 42 (genShareId 0) _ rfl⟩

/-- C5: under the default weights (0.25, 0.35, 0.20, 0.20 — which sum to 1),
the fused confidence score always lies in [0, 1] and equals the weighted sum
of the four input scores clamped to [0, 1]; when the four inputs themselves
lie in [0, 1] the clamp is the identity and the confidence equals the plain
weighted sum. -/
theorem confidence_bound (sim ent qual ev : ℚ) :
    (0 ≤ fuseConfidence defaultFusionWeights sim ent qual ev ∧
      fuseConfidence defaultFusionWeights sim ent qual ev ≤ 1) ∧
    fuseConfidence defaultFusionWeights sim ent qual ev =
      clamp01 (0.25 * sim + 0.35 * ent + 0.20 * qual + 0.20 * ev) ∧
    defaultFusionWeights.similarity + defaultFusionWeights.entailment +
      defaultFusionWeights.quality + defaultFusionWeights.evidence_strength = 1 ∧
    (0 ≤ sim → sim ≤ 1 → 0 ≤ ent → ent ≤ 1 → 0 ≤ qual → qual ≤ 1 →
      0 ≤ ev → ev ≤ 1 →
      fuseConfidence defaultFusionWeights sim ent qual ev =
        0.25 * sim + 0.35 * ent + 0.20 * qual + 0.20 * ev) := by
  refine ⟨⟨le_max_left 0 _, ?_⟩, rfl, by norm_num [defaultFusionWeights], ?_⟩
  · apply max_le (by norm_num)
    exact le_trans (min_le_left 1 _) le_rfl
  · intro hs1 hs2 he1 he2 hq1 hq2 hv1 hv2
    unfold fuseConfidence clamp01 weightedSum defaultFusionWeights
    have hsum1 : 0.25 * sim + 0.35 * ent + 0.20 * qual + 0.20 * ev ≤ 1 := by
      nlinarith
    have hsum0 : 0 ≤ 0.25 * sim + 0.35 * ent + 0.20 * qual + 0.20 * ev := by
      nlinarith
    rw [min_eq_right hsum1, max_eq_right hsum0]

/-- Witness for C5 at the spec's sample scores. -/
theorem confidence_bound_w :
    fuseConfidence defaultFusionWeights 0.8 0.6 0.5 0.7 =
      0.25 * 0.8 + 0.35 * 0.6 + 0.20 * 0.5 + 0.20 * 0.7 :=
  (confidence_bound 0.8 0.6 0.5 0.7).2.2.2 (by norm_num) (by norm_num)
    (by norm_num) (by norm_num) (by norm_num) (by norm_num) (by norm_num)
    (by norm_num)

/-- C6: the retained evidence list is sorted by descending similarity with
ties broken by ascending sentence index, and contains at most K snippets,
with the default K equal to 5. -/
theorem evidence_sorted_topk (scored : List EvidenceSnippet) :
    (retrieveEvidence defaultTopK defaultMinSimilarity scored).Pairwise
      (fun a b => b.similarity < a.similarity ∨
        (a.similarity = b.similarity ∧ a.sentence_index ≤ b.sentence_index)) ∧
    (retrieveEvidence defaultTopK defaultMinSimilarity scored).length ≤
      defaultTopK ∧
    defaultTopK = 5 := by
  refine ⟨?_, ?_, rfl⟩
  · have hsorted :=
      @List.sorted_mergeSort EvidenceSnippet snippetBefore
        snippetBefore_trans snippetBefore_total
        (scored.filter (fun s => decide (defaultMinSimilarity ≤ s.similarity)))
    have htake :
        (retrieveEvidence defaultTopK defaultMinSimilarity scored).Pairwise
          (fun a b => snippetBefore a b = true) :=
      hsorted.sublist (List.take_sublist _ _)
    exact htake.imp (fun hab => by
      simpa [snippetBefore, decide_eq_true_eq] using hab)
  · exact List.length_take_le _ _

/-- A concrete scored-sentence list used to evaluate the retriever. -/
def sampleScored : List EvidenceSnippet :=
  [{ text := "Exercise lowers resting heart rate.", similarity := 0.9,
     sentence_index := 0, word_count := 5 },
   { text := "Sample size was 200 participants.", similarity := 0.3,
     sentence_index := 2, word_count := 5 },
   { text := "The control group showed no significant change.",
     similarity := 0.3, sentence_index := 1, word_count := 7 },
   { text := "Unrelated filler.", similarity := 0.1, sentence_index := 3,
     word_count := 2 }]

/-- Witness for C6: the retriever keeps at most the default K snippets on a
concrete input. -/
theorem evidence_sorted_topk_w :
    (retrieveEvidence defaultTopK defaultMinSimilarity sampleScored).length ≤
      defaultTopK :=
  (evidence_sorted_topk sampleScored).2.1

/-! ## DOI input (`DoiInput.handleSubmit`) — claim C9

The handler first rejects inputs whose `trim()` is empty, then strips the
optional `http(s)://`, optional `dx.`, and `doi.org/` leading part with
`doi.replace(/^(https?:\/\/)?(dx\.)?doi\.org\//, '')`, tests the result
against `/^10\..+\/.+/`, and only on success requests
`documentApi.uploadFromDoi(cleanDoi)`. Modelled over `List Char` so the
regex semantics are explicit. -/

/-- The characters of `https://`. -/
def httpsChars : List Char := ['h', 't', 't', 'p', 's', ':', '/', '/']

/-- The characters of `http://`. -/
def httpChars : List Char := ['h', 't', 't', 'p', ':', '/', '/']

/-- The characters of `dx.`. -/
def dxChars : List Char := ['d', 'x', '.']

/-- The characters of `doi.org/`. -/
def doiOrgChars : List Char := ['d', 'o', 'i', '.', 'o', 'r', 'g', '/']

/-- The result of `doi.replace(/^(https?:\/\/)?(dx\.)?doi\.org\//, '')`: when
the string starts with an optional scheme, an optional `dx.`, and `doi.org/`,
that whole leading part is removed; otherwise the string is unchanged. -/
def cleanDoiOf (cs : List Char) : List Char :=
  let t1 := if List.isPrefixOf httpsChars cs then cs.drop 8
            else if List.isPrefixOf httpChars cs then cs.drop 7
            else cs
  let t2 := if List.isPrefixOf dxChars t1 then t1.drop 3 else t1
  if List.isPrefixOf doiOrgChars t2 then t2.drop 8 else cs

/-- Whether a character is matched by `.` in a JavaScript regex: any
character other than a line terminator. -/
def regexDot (c : Char) : Bool :=
  !(c = '\n' || c = '\r' || c = ' ' || c = ' ')

/-- Matcher for the remainder of `.+\/.+` once at least one `.`-matched
character has been consumed: the input matches `(.)*\/(.)` followed by
anything. At a `'/'` the matcher may either take it as the literal slash
(requiring one more `.`-char after it) or keep it inside `.+`. -/
def doiSlashSeg : List Char → Bool
  | [] => false
  | '/' :: rest =>
      (match rest with
       | d :: _ => regexDot d
       | [] => false)
      || doiSlashSeg rest
  | c :: rest => regexDot c && doiSlashSeg rest

/-- `doiPattern.test(cleanDoi)` for `doiPattern = /^10\..+\/.+/`. -/
def doiPatternTest (cs : List Char) : Bool :=
  match cs with
  | c1 :: c2 :: c3 :: c :: rest =>
      c1 = '1' && c2 = '0' && c3 = '.' && regexDot c && doiSlashSeg rest
  | _ => false

/-- The observable outcome of `DoiInput.handleSubmit`: a validation error
shown via `onError` with no request, or a `uploadFromDoi` request carrying
the cleaned DOI. -/
inductive DoiOutcome
  | invalid (msg : String)
  | request (doi : List Char)
deriving DecidableEq, Repr

/-- `DoiInput.handleSubmit`: empty-trim guard, prefix strip, pattern test,
then `documentApi.uploadFromDoi(cleanDoi)`. -/
def doiHandleSubmit (doi : List Char) : DoiOutcome :=
  if jsTrimL doi = [] then .invalid "Please enter a DOI"
  else
    let cleanDoi := cleanDoiOf doi
    if doiPatternTest cleanDoi then .request cleanDoi
    else .invalid "Please enter a valid DOI (e.g., 10.1000/123456)"

theorem jsTrimL_eq_nil {cs : List Char} (h : jsTrimL cs = []) :
    ∀ c ∈ cs, jsWhitespace c = true := by
  unfold jsTrimL at h
  rw [List.reverse_eq_nil_iff, List.dropWhile_eq_nil_iff] at h
  intro c hc
  rw [← List.takeWhile_append_dropWhile jsWhitespace cs] at hc
  rcases List.mem_append.1 hc with hm | hm
  · exact List.mem_takeWhile_imp hm
  · exact h c (List.mem_reverse.2 hm)

theorem jsWhitespace_not_alnum {c : Char} (h : jsWhitespace c = true) :
    c ≠ 'h' ∧ c ≠ 'd' ∧ c ≠ '1' := by
  simp only [jsWhitespace, Bool.or_eq_true, decide_eq_true_eq] at h
  rcases h with ((((((((h | h) | h) | h) | h) | h) | h) | h) | h) | h <;>
    subst h <;> exact ⟨by decide, by decide, by decide⟩

theorem cleanDoiOf_of_ws {cs : List Char}
    (hws : ∀ c ∈ cs, jsWhitespace c = true) :
    doiPatternTest (cleanDoiOf cs) = false := by
  rcases cs with _ | ⟨c, rest⟩
  · decide
  · obtain ⟨hh, hd, h1⟩ := jsWhitespace_not_alnum (hws c (by simp))
    have hhttps : List.isPrefixOf httpsChars (c :: rest) = false := by
      simp [httpsChars, List.isPrefixOf, Ne.symm hh]
    have hhttp : List.isPrefixOf httpChars (c :: rest) = false := by
      simp [httpChars, List.isPrefixOf, Ne.symm hh]
    have hdx : List.isPrefixOf dxChars (c :: rest) = false := by
      simp [dxChars, List.isPrefixOf, Ne.symm hd]
    have hdoi : List.isPrefixOf doiOrgChars (c :: rest) = false := by
      simp [doiOrgChars, List.isPrefixOf, Ne.symm hd]
    have hclean : cleanDoiOf (c :: rest) = c :: rest := by
      simp [cleanDoiOf, hhttps, hhttp, hdx, hdoi]
    rw [hclean]
    rcases rest with _ | ⟨c2, rest2⟩
    · rfl
    rcases rest2 with _ | ⟨c3, rest3⟩
    · rfl
    rcases rest3 with _ | ⟨c4, rest4⟩
    · rfl
    · simp [doiPatternTest, h1]

/-- C9: a `uploadFromDoi` request is issued exactly when the input, after the
prefix strip, matches `^10\..+\/.+`; any issued request carries the cleaned
(prefix-stripped) DOI, and on a non-matching input a validation error is
shown and no request is made. -/
theorem doi_request_iff (doi : List Char) :
    (doiHandleSubmit doi = .request (cleanDoiOf doi) ↔
      doiPatternTest (cleanDoiOf doi) = true) ∧
    (∀ c, doiHandleSubmit doi = .request c → c = cleanDoiOf doi) ∧
    (doiPatternTest (cleanDoiOf doi) = false →
      ∃ msg, doiHandleSubmit doi = .invalid msg) := by
  refine ⟨⟨?_, ?_⟩, ?_, ?_⟩
  · intro h
    unfold doiHandleSubmit at h
    by_cases ht : jsTrimL doi = []
    · simp [ht] at h
    · by_cases hp : doiPatternTest (cleanDoiOf doi) = true
      · exact hp
      · simp [ht, hp] at h
  · intro hp
    have ht : ¬ jsTrimL doi = [] := by
      intro ht
      rw [cleanDoiOf_of_ws (jsTrimL_eq_nil ht)] at hp
      cases hp
    unfold doiHandleSubmit
    simp [ht, hp]
  · intro c h
    unfold doiHandleSubmit at h
    by_cases ht : jsTrimL doi = []
    · simp [ht] at h
    · by_cases hp : doiPatternTest (cleanDoiOf doi) = true
      · simp only [if_neg ht, if_pos hp, DoiOutcome.request.injEq] at h
        exact h.symm
      · simp [ht, hp] at h
  · intro hp
    unfold doiHandleSubmit
    by_cases ht : jsTrimL doi = []
    · exact ⟨"Please enter a DOI", by simp [ht]⟩
    · exact ⟨"Please enter a valid DOI (e.g., 10.1000/123456)",
        by simp [ht, hp]⟩

/-- A sample DOI input carrying the full `https://doi.org/` leading part. -/
def sampleDoiInput : List Char :=
  ['h', 't', 't', 'p', 's', ':', '/', '/', 'd', 'o', 'i', '.', 'o', 'r', 'g',
   '/', '1', '0', '.', '1', '0', '0', '0', '/', 'x', 'y', 'z']

/-- Witness for C9: the sample input is requested with the cleaned DOI
`10.1000/xyz`. -/
theorem doi_request_iff_w :
    doiHandleSubmit sampleDoiInput = .request (cleanDoiOf sampleDoiInput) ∧
    cleanDoiOf sampleDoiInput =
      ['1', '0', '.', '1', '0', '0', '0', '/', 'x', 'y', 'z'] :=
  ⟨(doi_request_iff sampleDoiInput).1.mpr (by decide), by decide⟩

end Veritium
